import Mathlib

/-!
Verification development for the side-scan sonar processing node
(`sonar_processing_node.py` of the Navigation-brov2 repository).

The Python node is shallowly embedded below.  Numeric samples are modelled
as `RVal`: an IEEE float that is either an ordinary real number or the
`nan` missing-value marker (`np.nan`), with nan-propagating arithmetic.
Sample channels are modelled as the Python lists that the node builds in
`sonar_sub` (all slice operations use Python list-slice semantics).
Real-number functions (`np.sin`, `np.sqrt`, ...) are modelled by their
Mathlib counterparts, which makes the affected definitions noncomputable;
all discrete structure (lists, buffers, indices) stays executable.

The modules `side_scan_data` and `cubic_spline_regression` that the node
imports are not part of the repository snapshot:
* `side_scan_data` supplies the session-fixed sonar geometry constants
  (`theta`, `alpha`, `res`, `nSamples`); these are modelled as an explicit
  `side_scan_data` structure parameter.
* `cubic_spline_regression.swath_normalization` fits a regression trend
  and flattens a channel against it; its numeric behaviour is unknown, so
  the pipeline is parametric in a normalization function `norm`, with the
  spec-derived fact that it is per-sample (length preserving) taken as an
  explicit hypothesis where a statement needs it.
-/

/-- A numeric intensity sample: either a real value or the `np.nan`
missing-value marker. -/
inductive RVal : Type
  | nan : RVal
  | num : ℝ → RVal

/-- IEEE-style addition: `nan` propagates. -/
def RVal.add : RVal → RVal → RVal
  | RVal.num a, RVal.num b => RVal.num (a + b)
  | _, _ => RVal.nan

/-- IEEE-style scaling by a real weight: `nan` propagates (also for
weight 0, as for floats). -/
def RVal.smul (w : ℝ) : RVal → RVal
  | RVal.num a => RVal.num (w * a)
  | RVal.nan => RVal.nan

/-- Session-fixed sonar geometry constants, from the (absent)
`side_scan_data` module: tilt angle `theta`, beam angle `alpha`, range
resolution `res`, nominal sample count `nSamples`. -/
structure side_scan_data : Type where
  theta : ℝ
  alpha : ℝ
  res : ℝ
  nSamples : ℝ

/-- A vehicle pose: position (x, y) and orientation quaternion
(w, x, y, z), the parts of an `Odometry` message the node reads. -/
structure PoseState : Type where
  px : ℝ
  py : ℝ
  qw : ℝ
  qx : ℝ
  qy : ℝ
  qz : ℝ

/-- `swath_structure`: one ping's right and left sample channels plus the
captured pose and altitude. -/
structure swath_structure : Type where
  swath_right : List RVal
  swath_left : List RVal
  state : PoseState
  altitude : ℝ

/-- Python list slice assignment `xs[:i] = [m]*i` (the statement in
`blind_zone_removal`).  For `0 ≤ i` the slice `xs[:i]` selects the first
`min i (length xs)` elements and is replaced by `i` copies of `m` (the
list grows when `i > length xs`).  For `i < 0` the slice is
`xs[0 : max 0 (length xs + i)]` and the right-hand side `[m]*i` is empty,
so that many leading elements are deleted. -/
def pySliceAssign (i : ℤ) (m : α) (xs : List α) : List α :=
  if 0 ≤ i then
    List.replicate i.toNat m ++ xs.drop (min i.toNat xs.length)
  else
    xs.drop (xs.length - min xs.length (-i).toNat)

/-- The first-bottom-return boundary index of `blind_zone_removal`:
`int(np.floor_divide(current_altitude / np.sin(theta + alpha/2), res))`. -/
noncomputable def index_FBR (ssd : side_scan_data) (current_altitude : ℝ) : ℤ :=
  ⌊current_altitude / Real.sin (ssd.theta + ssd.alpha / 2) / ssd.res⌋

/-- `blind_zone_removal(self, swath)`: replaces the first `index_FBR`
samples of a channel by `np.nan`, computing the index from the node's
`self.current_altitude` (not from any swath-captured altitude). -/
noncomputable def blind_zone_removal (ssd : side_scan_data)
    (current_altitude : ℝ) (swath : List RVal) : List RVal :=
  pySliceAssign (index_FBR ssd current_altitude) RVal.nan swath

/-- `exact_bin` of `slant_range_correction`:
`np.sqrt((res*sample)**2 + altitude**2)/res`. -/
noncomputable def exact_bin (res altitude : ℝ) (sample : ℕ) : ℝ :=
  Real.sqrt ((res * sample) ^ 2 + altitude ^ 2) / res

/-- One loop iteration of `slant_range_correction` on one channel:
`floor_bin = int(min(math.floor(exact_bin), number_of_samples-1))`,
`ceiling_bin = int(min(math.ceil(exact_bin), number_of_samples-1))`,
`weight_1 = exact_bin - floor_bin`, `weight_2 = 1 - weight_1`, and the
corrected value `weight_2*swath[floor_bin] + weight_1*swath[ceiling_bin]`.
Python raises `IndexError` on an out-of-range index; the `getD` default is
never reached in the regime the claims address (`0 < res`, equal channel
lengths), where both bins lie in `[0, N-1]`. -/
noncomputable def slant_sample (res altitude : ℝ) (numberOfSamples : ℕ)
    (swath : List RVal) (sample : ℕ) : RVal :=
  let e := exact_bin res altitude sample
  let floorBin : ℤ := min ⌊e⌋ ((numberOfSamples : ℤ) - 1)
  let ceilingBin : ℤ := min ⌈e⌉ ((numberOfSamples : ℤ) - 1)
  let weight1 : ℝ := e - floorBin
  let weight2 : ℝ := 1 - weight1
  RVal.add (RVal.smul weight2 (swath.getD floorBin.toNat RVal.nan))
    (RVal.smul weight1 (swath.getD ceilingBin.toNat RVal.nan))

/-- `slant_range_correction(self, swath_structure)`: resamples both
channels over `number_of_samples = len(swath_right)` indices, using the
swath's captured `altitude`, and writes the corrected channels back into
the swath structure. -/
noncomputable def slant_range_correction (ssd : side_scan_data)
    (sw : swath_structure) : swath_structure :=
  let numberOfSamples := sw.swath_right.length
  { sw with
    swath_right := List.ofFn fun s : Fin numberOfSamples =>
      slant_sample ssd.res sw.altitude numberOfSamples sw.swath_right s
    swath_left := List.ofFn fun s : Fin numberOfSamples =>
      slant_sample ssd.res sw.altitude numberOfSamples sw.swath_left s }

/-- `pitch_yaw_from_quaternion`: `t2 = 2(wy - zx)` clamped to `[-1, 1]`,
`pitch = asin t2`; `yaw = atan2 (2(wz + xy)) (1 - 2(y² + z²))`.
`math.atan2` is modelled by its piecewise definition over `Real.arctan`. -/
noncomputable def atan2 (y x : ℝ) : ℝ :=
  if 0 < x then Real.arctan (y / x)
  else if x < 0 then
    (if 0 ≤ y then Real.arctan (y / x) + Real.pi
     else Real.arctan (y / x) - Real.pi)
  else
    (if 0 < y then Real.pi / 2 else if y < 0 then -(Real.pi / 2) else 0)

/-- `pitch_yaw_from_quaternion(self, w, x, y, z)` returning
`(pitch, yaw)` in radians. -/
noncomputable def pitch_yaw_from_quaternion (w x y z : ℝ) : ℝ × ℝ :=
  let t2 := max (-1) (min 1 (2 * (w * y - z * x)))
  let t3 := 2 * (w * z + x * y)
  let t4 := 1 - 2 * (y * y + z * z)
  (Real.arcsin t2, atan2 t3 t4)

/-- The 6×N coordinate array produced by `pose_correction` for one swath:
rows 0-3 are `x_right, x_left, y_right, y_left`, rows 4-5 the right and
left intensity channels. -/
structure CoordinateFrame : Type where
  x_right : List ℝ
  x_left : List ℝ
  y_right : List ℝ
  y_left : List ℝ
  intensity_right : List RVal
  intensity_left : List RVal

/-- `pose_correction(self, swath_structure)`: extracts pitch/yaw from the
captured quaternion, computes the ground resolution
`res = (tan(theta+alpha/2) - tan(theta-alpha/2)) * altitude / nSamples`,
and fills the coordinate array per sample from the source's four
projection formulas; rows 4-5 receive the two intensity channels. -/
noncomputable def pose_correction (ssd : side_scan_data)
    (sw : swath_structure) : CoordinateFrame :=
  let p := pitch_yaw_from_quaternion sw.state.qw sw.state.qx sw.state.qy sw.state.qz
  let theta := p.1
  let psi := p.2
  let posX := sw.state.px
  let posY := sw.state.py
  let altitude := sw.altitude
  let resTemp := Real.tan (ssd.theta + ssd.alpha / 2)
    - Real.tan (ssd.theta - ssd.alpha / 2)
  let res := resTemp * altitude / ssd.nSamples
  let n := sw.swath_right.length
  { x_right := List.ofFn fun s : Fin n =>
      -(posX + Real.sin psi * s * res + Real.sin theta * Real.cos psi * altitude)
    x_left := List.ofFn fun s : Fin n =>
      -(posX - Real.sin psi * s * res + Real.sin theta * Real.cos psi * altitude)
    y_right := List.ofFn fun s : Fin n =>
      (-posY + Real.cos psi * s * res - Real.sin theta * Real.sin psi * altitude)
    y_left := List.ofFn fun s : Fin n =>
      (-posY - Real.cos psi * s * res - Real.sin theta * Real.sin psi * altitude)
    intensity_right := sw.swath_right
    intensity_left := sw.swath_left }

/-- The flattening loop of `construct_frame`: starting from empty
accumulators, each buffered coordinate array extends `u` with rows 0-1
(`x_right` then `x_left`), `v` with rows 2-3 (`y_right` then `y_left`),
and `intensity_values` with row 5 (`intensity_left`) then row 4
(`intensity_right`). -/
def construct_frame_scatter (buffer : List CoordinateFrame) :
    List ℝ × List ℝ × List RVal :=
  buffer.foldl
    (fun acc f =>
      (acc.1 ++ f.x_right ++ f.x_left,
       acc.2.1 ++ f.y_right ++ f.y_left,
       acc.2.2 ++ f.intensity_left ++ f.intensity_right))
    ([], [], [])

/-- Concatenation of one row selector over all buffered frames. -/
def flatRows (g : CoordinateFrame → List α) (buffer : List CoordinateFrame) :
    List α :=
  (buffer.map g).flatten

/-- The pairing the spec describes: intensities accompanying the scatter
points in right-channel-first order, matching the order of the `u` and
`v` rows. -/
def rightFirstIntensity (buffer : List CoordinateFrame) : List RVal :=
  flatRows (fun f => f.intensity_right ++ f.intensity_left) buffer

/-- `construct_frame`, up to the external calls: flattens the buffer into
the scatter `(u, v, intensity_values)`.  With an empty scatter Python
raises `ValueError` at `min(u_temp)`; with fewer than 3 scatter points
the triangulation-based `interpolate.griddata` call is degenerate
(modelled from the spec: grid interpolation is degenerate below 3 scatter
points) and raises; neither error is caught.  Both are modelled as
`Except.error`.  The grid, the external knn smoothing products and the
csv emission do not feed back into the node state (beyond the frame
counter, tracked as `builds` in `NodeState`) and are not modelled. -/
def construct_frame (buffer : List CoordinateFrame) :
    Except Unit (List ℝ × List ℝ × List RVal) :=
  let scatter := construct_frame_scatter buffer
  if scatter.1.length < 3 then Except.error () else Except.ok scatter

/-- The mutable state of `SonarProcessingNode`.  Python aliasing matters
here: `self.current_swath` is allocated once in `__init__` and never
rebound, so every entry of `buffer_unprocessed_swaths` is a reference to
that same object.  The model therefore keeps an explicit object store
(`heap`) and the unprocessed buffer holds heap indices; `current_swath`
is the single allocation at index 0. -/
structure NodeState : Type where
  heap : List swath_structure
  current_altitude : ℝ
  current_state : PoseState
  state_initialized : Bool
  buffer_unprocessed_swaths : List ℕ
  buffer_processed_coordinate_array : List CoordinateFrame
  builds : ℕ

/-- The heap index of `self.current_swath` (allocated once in
`__init__`, never rebound). -/
def currentSwathRef : ℕ := 0

/-- The default pose (`Odometry()`): all-zero position and quaternion. -/
def defaultPose : PoseState := ⟨0, 0, 0, 0, 0, 0⟩

/-- `__init__`: one `swath_structure()` allocated as `current_swath`,
altitude 0, default odometry, ingestion locked, both buffers empty. -/
def initNodeState : NodeState :=
  { heap := [⟨[], [], defaultPose, 0⟩]
    current_altitude := 0
    current_state := defaultPose
    state_initialized := false
    buffer_unprocessed_swaths := []
    buffer_processed_coordinate_array := []
    builds := 0 }

/-- A sonar message: the two per-sample channels after the big-endian
integer decode of `data_zero` / `data_one` (the decode itself is not
modelled; samples arrive as numbers). -/
structure SonarMsg : Type where
  data_zero : List ℝ
  data_one : List ℝ

/-- `sonar_sub`: dropped before the first pose; otherwise overwrites the
fields of the shared `current_swath` object with the decoded channels and
the current altitude/pose snapshot, and appends the object (its heap
reference) to the unprocessed buffer. -/
def sonar_sub (msg : SonarMsg) (st : NodeState) : NodeState :=
  if st.state_initialized then
    { st with
      heap := st.heap.set currentSwathRef
        ⟨msg.data_zero.map RVal.num, msg.data_one.map RVal.num,
          st.current_state, st.current_altitude⟩
      buffer_unprocessed_swaths :=
        st.buffer_unprocessed_swaths ++ [currentSwathRef] }
  else st

/-- `dvl_sub`: altitude values of -1 are invalid and ignored. -/
noncomputable def dvl_sub (altitude : ℝ) (st : NodeState) : NodeState :=
  if altitude ≠ -1 then { st with current_altitude := altitude } else st

/-- `state_sub`: records the pose and unlocks ingestion. -/
def state_sub (p : PoseState) (st : NodeState) : NodeState :=
  { st with current_state := p, state_initialized := true }

/-- The per-swath stage chain of the tick body (lines 170-179 of the
source): intensity normalization on both channels (the parametric
`norm`), blind-zone removal on both channels using the node's
`current_altitude`, then slant-range correction using the swath's
captured altitude. -/
noncomputable def processSwath (norm : List RVal → List RVal)
    (ssd : side_scan_data) (current_altitude : ℝ)
    (sw : swath_structure) : swath_structure :=
  let sw1 := { sw with
    swath_right := norm sw.swath_right
    swath_left := norm sw.swath_left }
  let sw2 := { sw1 with
    swath_right := blind_zone_removal ssd current_altitude sw1.swath_right
    swath_left := blind_zone_removal ssd current_altitude sw1.swath_left }
  slant_range_correction ssd sw2

/-- `run_full_pre_processing_pipeline` (the scheduler tick).  Returns
`none` when the tick raises an uncaught exception (only the degenerate
mosaic build does).  Order as in the source: empty-queue early return;
then, if the processed-buffer length is a nonzero multiple of 100, the
mosaic build runs (`construct_frame`, counted in `builds`) and the oldest
50 frames are evicted; then the head swath of the unprocessed buffer is
read, conditioned and corrected in place (the heap cell is updated),
its coordinate array is appended to the processed buffer, and the head
reference is popped. -/
noncomputable def run_full_pre_processing_pipeline
    (norm : List RVal → List RVal) (ssd : side_scan_data)
    (st : NodeState) : Option NodeState :=
  match st.buffer_unprocessed_swaths with
  | [] => some st
  | ref :: rest =>
    let bufferSize := st.buffer_processed_coordinate_array.length
    let built : Except Unit (List CoordinateFrame × ℕ) :=
      if bufferSize % 100 = 0 ∧ bufferSize ≠ 0 then
        (construct_frame st.buffer_processed_coordinate_array).map
          (fun _ => (st.buffer_processed_coordinate_array.drop 50,
                     st.builds + 1))
      else Except.ok (st.buffer_processed_coordinate_array, st.builds)
    match built with
    | Except.error _ => none
    | Except.ok (processedBuffer, builds) =>
      match st.heap.get? ref with
      | none => none
      | some sw =>
        let sw2 := processSwath norm ssd st.current_altitude sw
        let frame := pose_correction ssd sw2
        some { st with
          heap := st.heap.set ref sw2
          buffer_unprocessed_swaths := rest
          buffer_processed_coordinate_array := processedBuffer ++ [frame]
          builds := builds }

/-- The four entry points of the node. -/
inductive Event : Type
  | sonar : SonarMsg → Event
  | dvl : ℝ → Event
  | pose : PoseState → Event
  | tick : Event

/-- One entry-point invocation. -/
noncomputable def step (norm : List RVal → List RVal) (ssd : side_scan_data) :
    Event → NodeState → Option NodeState
  | Event.sonar msg, st => some (sonar_sub msg st)
  | Event.dvl a, st => some (dvl_sub a st)
  | Event.pose p, st => some (state_sub p st)
  | Event.tick, st => run_full_pre_processing_pipeline norm ssd st

/-- Runs a chronological event script from a given state; `none` once a
tick faults. -/
noncomputable def execAux (norm : List RVal → List RVal)
    (ssd : side_scan_data) : NodeState → List Event → Option NodeState
  | st, [] => some st
  | st, e :: es =>
    match step norm ssd e st with
    | none => none
    | some st' => execAux norm ssd st' es

/-- Runs a chronological event script from the freshly initialized node. -/
noncomputable def execute (norm : List RVal → List RVal)
    (ssd : side_scan_data) (es : List Event) : Option NodeState :=
  execAux norm ssd initNodeState es

/-- The mosaic trigger condition of the tick: processed-buffer length a
nonzero multiple of 100. -/
def mosaicTrigger (st : NodeState) : Prop :=
  st.buffer_processed_coordinate_array.length % 100 = 0
    ∧ st.buffer_processed_coordinate_array.length ≠ 0

/-- Follows the spec's words (§4.3 `slant_to_ground`): for sample index
`s`, `exact_bin = sqrt((res*s)^2 + altitude^2)/res`,
`floor_bin = min(floor(exact_bin), N-1)`,
`ceiling_bin = min(ceil(exact_bin), N-1)`, `w1 = exact_bin - floor_bin`,
`w2 = 1 - w1`, and the corrected intensity is the linear blend
`w2*sample[floor_bin] + w1*sample[ceiling_bin]`. -/
noncomputable def slant_to_ground_spec (res altitude : ℝ) (n : ℕ)
    (sample : ℕ → RVal) (s : ℕ) : RVal :=
  let exactBin := Real.sqrt ((res * s) ^ 2 + altitude ^ 2) / res
  let floorBin : ℤ := min ⌊exactBin⌋ ((n : ℤ) - 1)
  let ceilingBin : ℤ := min ⌈exactBin⌉ ((n : ℤ) - 1)
  let w1 : ℝ := exactBin - floorBin
  let w2 : ℝ := 1 - w1
  RVal.add (RVal.smul w2 (sample floorBin.toNat))
    (RVal.smul w1 (sample ceilingBin.toNat))

/-- Length of a Python slice assignment `xs[:i] = [m]*i`. -/
theorem pySliceAssign_length (i : ℤ) (m : α) (xs : List α) :
    (pySliceAssign i m xs).length =
      if 0 ≤ i then max i.toNat xs.length
      else min xs.length (-i).toNat := by
  unfold pySliceAssign
  by_cases h : 0 ≤ i
  · simp only [if_pos h, List.length_append, List.length_replicate,
      List.length_drop]
    omega
  · simp only [if_neg h, List.length_drop]
    omega

/-- `pySliceAssign` with a fixed index is idempotent. -/
theorem pySliceAssign_idem (i : ℤ) (m : α) (xs : List α) :
    pySliceAssign i m (pySliceAssign i m xs) = pySliceAssign i m xs := by
  by_cases h : 0 ≤ i
  · have hlen : (pySliceAssign i m xs).length = max i.toNat xs.length := by
      rw [pySliceAssign_length, if_pos h]
    unfold pySliceAssign
    simp only [if_pos h]
    have hmin : min i.toNat (List.replicate i.toNat m ++
        xs.drop (min i.toNat xs.length)).length = i.toNat := by
      simp only [List.length_append, List.length_replicate, List.length_drop]
      omega
    rw [hmin]
    congr 1
    rw [List.drop_append_of_le_length (by simp)]
    simp
  · unfold pySliceAssign
    simp only [if_neg h]
    have h1 : (List.drop (xs.length - xs.length ⊓ (-i).toNat) xs).length
        = xs.length ⊓ (-i).toNat := by
      rw [List.length_drop]; omega
    rw [h1]
    have h2 : xs.length ⊓ (-i).toNat - (xs.length ⊓ (-i).toNat) ⊓ (-i).toNat
        = 0 := by omega
    rw [h2, List.drop_zero]

theorem construct_frame_scatter_aux (buffer : List CoordinateFrame)
    (a : List ℝ) (b : List ℝ) (c : List RVal) :
    buffer.foldl
      (fun acc f =>
        (acc.1 ++ f.x_right ++ f.x_left,
         acc.2.1 ++ f.y_right ++ f.y_left,
         acc.2.2 ++ f.intensity_left ++ f.intensity_right))
      (a, b, c)
    = (a ++ flatRows (fun f => f.x_right ++ f.x_left) buffer,
       b ++ flatRows (fun f => f.y_right ++ f.y_left) buffer,
       c ++ flatRows (fun f => f.intensity_left ++ f.intensity_right) buffer) := by
  induction buffer generalizing a b c with
  | nil => simp [flatRows]
  | cons f fs ih =>
      simp only [List.foldl_cons, ih, flatRows, List.map_cons, List.flatten]
      simp [List.append_assoc]

/-- The scatter is the per-frame concatenation: `u` is right-then-left
x rows, `v` right-then-left y rows, and the intensity sequence is
left-then-right. -/
theorem construct_frame_scatter_eq (buffer : List CoordinateFrame) :
    construct_frame_scatter buffer
    = (flatRows (fun f => f.x_right ++ f.x_left) buffer,
       flatRows (fun f => f.y_right ++ f.y_left) buffer,
       flatRows (fun f => f.intensity_left ++ f.intensity_right) buffer) := by
  unfold construct_frame_scatter
  rw [construct_frame_scatter_aux]
  simp

/-- With tilt `theta = pi/2`, beam angle `alpha = 0` and resolution 1,
the blind-zone boundary index is just the floor of the altitude. -/
theorem index_FBR_pi_div_two (a : ℝ) :
    index_FBR ⟨Real.pi / 2, 0, 1, 1⟩ a = ⌊a⌋ := by
  unfold index_FBR
  norm_num [Real.sin_pi_div_two]

/-- C9: Blind-zone removal is idempotent: for every channel, applying it
twice with the same altitude yields the same channel as applying it
once. -/
theorem C9_blind_zone_idempotent (ssd : side_scan_data)
    (current_altitude : ℝ) (channel : List RVal) :
    blind_zone_removal ssd current_altitude
        (blind_zone_removal ssd current_altitude channel)
      = blind_zone_removal ssd current_altitude channel := by
  unfold blind_zone_removal
  exact pySliceAssign_idem _ _ _

/-- C4 counterexample: the boundary index is NOT clamped to the valid
sample range.  With `theta = pi/2`, `alpha = 0`, `res = 1` and altitude 5,
the boundary index is 5; on a 2-sample channel the Python slice
assignment `swath[:5] = [nan]*5` replaces the whole channel by five
markers, so the length changes from 2 to 5 — the claim's "exactly
min(i, length) leading samples are replaced and the channel's length is
unchanged" fails. -/
theorem C4_no_clamp_counterexample :
    (blind_zone_removal ⟨Real.pi / 2, 0, 1, 1⟩ 5
        [RVal.num 1, RVal.num 2]).length ≠ 2
    ∧ blind_zone_removal ⟨Real.pi / 2, 0, 1, 1⟩ 5 [RVal.num 1, RVal.num 2]
        = List.replicate 5 RVal.nan := by
  have hi : index_FBR ⟨Real.pi / 2, 0, 1, 1⟩ 5 = 5 := by
    rw [index_FBR_pi_div_two]; norm_num
  have hv : blind_zone_removal ⟨Real.pi / 2, 0, 1, 1⟩ 5
      [RVal.num 1, RVal.num 2] = List.replicate 5 RVal.nan := by
    unfold blind_zone_removal
    rw [hi]
    rfl
  refine ⟨?_, hv⟩
  rw [hv]
  simp

/-- C4 (amended): the boundary index `i = floor(altitude / sin(theta +
alpha/2) / res)` is not clamped.  When `0 ≤ i ≤ length`, exactly `i`
leading samples are replaced by the missing-value marker and the
channel's length is unchanged; when `i > length`, the whole channel is
replaced by `i` markers and the length grows to `i`. -/
theorem C4_blind_zone_prefix_behavior (ssd : side_scan_data)
    (current_altitude : ℝ) (channel : List RVal) :
    (0 ≤ index_FBR ssd current_altitude →
      (index_FBR ssd current_altitude).toNat ≤ channel.length →
        (blind_zone_removal ssd current_altitude channel).length
            = channel.length
        ∧ (blind_zone_removal ssd current_altitude channel).take
              (index_FBR ssd current_altitude).toNat
            = List.replicate (index_FBR ssd current_altitude).toNat RVal.nan
        ∧ (blind_zone_removal ssd current_altitude channel).drop
              (index_FBR ssd current_altitude).toNat
            = channel.drop (index_FBR ssd current_altitude).toNat)
    ∧ (0 ≤ index_FBR ssd current_altitude →
       channel.length < (index_FBR ssd current_altitude).toNat →
        blind_zone_removal ssd current_altitude channel
          = List.replicate (index_FBR ssd current_altitude).toNat RVal.nan) := by
  set i := index_FBR ssd current_altitude with hidef
  unfold blind_zone_removal
  rw [← hidef]
  constructor
  · intro hpos hle
    unfold pySliceAssign
    rw [if_pos hpos]
    have hmin : min i.toNat channel.length = i.toNat := by omega
    rw [hmin]
    refine ⟨?_, ?_, ?_⟩
    · simp only [List.length_append, List.length_replicate, List.length_drop]
      omega
    · rw [List.take_append_of_le_length (by simp)]
      simp
    · rw [List.drop_append_of_le_length (by simp)]
      simp
  · intro hpos hgt
    unfold pySliceAssign
    rw [if_pos hpos]
    have hmin : min i.toNat channel.length = channel.length := by omega
    rw [hmin]
    simp

/-- C4 witness: with `theta = pi/2`, `alpha = 0`, `res = 1`: at altitude 1
on a 2-sample channel the boundary index is 1, one leading sample becomes
the marker and the length stays 2; at altitude 5 the whole channel is
replaced by 5 markers. -/
theorem C4_blind_zone_witness :
    (blind_zone_removal ⟨Real.pi / 2, 0, 1, 1⟩ 1
        [RVal.num 3, RVal.num 7]).length = 2
    ∧ (blind_zone_removal ⟨Real.pi / 2, 0, 1, 1⟩ 1
        [RVal.num 3, RVal.num 7]).take 1 = [RVal.nan]
    ∧ blind_zone_removal ⟨Real.pi / 2, 0, 1, 1⟩ 5 [RVal.num 3, RVal.num 7]
        = List.replicate 5 RVal.nan := by
  have hi1 : index_FBR ⟨Real.pi / 2, 0, 1, 1⟩ 1 = 1 := by
    rw [index_FBR_pi_div_two]; norm_num
  have hi5 : index_FBR ⟨Real.pi / 2, 0, 1, 1⟩ 5 = 5 := by
    rw [index_FBR_pi_div_two]; norm_num
  have h1 := (C4_blind_zone_prefix_behavior ⟨Real.pi / 2, 0, 1, 1⟩ 1
      [RVal.num 3, RVal.num 7]).1 (by rw [hi1]; norm_num)
      (by rw [hi1]; simp)
  have h5 := (C4_blind_zone_prefix_behavior ⟨Real.pi / 2, 0, 1, 1⟩ 5
      [RVal.num 3, RVal.num 7]).2 (by rw [hi5]; norm_num)
      (by rw [hi5]; simp)
  rw [hi1] at h1
  rw [hi5] at h5
  simp only [Int.toNat_one, List.length_cons, List.length_nil,
    List.replicate_succ, List.replicate_zero] at h1
  exact ⟨h1.1, h1.2.1, h5⟩

/-- C10: In the tick's stage chain, blind-zone removal computes its
boundary index from the node's `current_altitude` while slant-range
correction uses the swath's captured altitude.  First conjunct: the
stage chain factors so that both blind-zone calls receive
`current_altitude` and the slant stage receives the swath carrying its
captured altitude `a` (whatever `a` is).  The remaining conjuncts show
each dependence is real: the blind-zone prefix follows the node altitude
(2 markers at node altitude 2, none at node altitude 0, same channel),
and the slant output follows the captured altitude (sample 0 of the same
channel differs between captured altitudes 0 and 1). -/
theorem C10_blind_zone_node_altitude :
    (∀ (norm : List RVal → List RVal) (ssd : side_scan_data)
        (current_altitude a : ℝ) (sw : swath_structure),
      processSwath norm ssd current_altitude { sw with altitude := a }
        = slant_range_correction ssd
            ⟨blind_zone_removal ssd current_altitude (norm sw.swath_right),
             blind_zone_removal ssd current_altitude (norm sw.swath_left),
             sw.state, a⟩)
    ∧ blind_zone_removal ⟨Real.pi / 2, 0, 1, 1⟩ 2
        [RVal.num 5, RVal.num 6, RVal.num 7]
        = [RVal.nan, RVal.nan, RVal.num 7]
    ∧ blind_zone_removal ⟨Real.pi / 2, 0, 1, 1⟩ 0
        [RVal.num 5, RVal.num 6, RVal.num 7]
        = [RVal.num 5, RVal.num 6, RVal.num 7]
    ∧ (slant_range_correction ⟨Real.pi / 2, 0, 1, 1⟩
          ⟨[RVal.num 1, RVal.num 2], [RVal.num 1, RVal.num 2],
            defaultPose, 0⟩).swath_right.get? 0 = some (RVal.num 1)
    ∧ (slant_range_correction ⟨Real.pi / 2, 0, 1, 1⟩
          ⟨[RVal.num 1, RVal.num 2], [RVal.num 1, RVal.num 2],
            defaultPose, 1⟩).swath_right.get? 0 = some (RVal.num 2) := by
  refine ⟨?_, ?_, ?_, ?_, ?_⟩
  · intro norm ssd current_altitude a sw
    rfl
  · have h2 : index_FBR ⟨Real.pi / 2, 0, 1, 1⟩ 2 = 2 := by
      rw [index_FBR_pi_div_two]; norm_num
    unfold blind_zone_removal
    rw [h2]
    rfl
  · have h0 : index_FBR ⟨Real.pi / 2, 0, 1, 1⟩ 0 = 0 := by
      rw [index_FBR_pi_div_two]; norm_num
    unfold blind_zone_removal
    rw [h0]
    rfl
  · simp only [slant_range_correction, List.length_cons, List.length_nil,
      List.get?_ofFn, List.ofFnNthVal]
    norm_num [slant_sample, exact_bin, RVal.add, RVal.smul]
  · simp only [slant_range_correction, List.length_cons, List.length_nil,
      List.get?_ofFn, List.ofFnNthVal]
    norm_num [slant_sample, exact_bin, RVal.add, RVal.smul, Real.sqrt_one]

/-- C6: `slant_range_correction` computes, for every sample index
`s < N` of a swath with `N` samples per channel, exactly the spec's
blend `w2*sample[floor_bin] + w1*sample[ceiling_bin]` with
`exact_bin = sqrt((res*s)^2 + altitude^2)/res` and the min-clamped
floor/ceiling bins, independently per channel; and at `s = 0` with
non-negative altitude, `exact_bin = altitude/res`. -/
theorem C6_slant_range_formula (ssd : side_scan_data)
    (sw : swath_structure) (n s : ℕ)
    (hr : sw.swath_right.length = n) (hl : sw.swath_left.length = n)
    (hs : s < n) :
    (slant_range_correction ssd sw).swath_right.get? s
      = some (slant_to_ground_spec ssd.res sw.altitude n
          (fun k => sw.swath_right.getD k RVal.nan) s)
    ∧ (slant_range_correction ssd sw).swath_left.get? s
      = some (slant_to_ground_spec ssd.res sw.altitude n
          (fun k => sw.swath_left.getD k RVal.nan) s)
    ∧ (0 ≤ sw.altitude →
        exact_bin ssd.res sw.altitude 0 = sw.altitude / ssd.res) := by
  subst hr
  refine ⟨?_, ?_, ?_⟩
  · simp only [slant_range_correction, List.get?_ofFn, List.ofFnNthVal,
      dif_pos hs]
    rfl
  · simp only [slant_range_correction, List.get?_ofFn, List.ofFnNthVal,
      dif_pos hs]
    rfl
  · intro halt
    unfold exact_bin
    rw [Nat.cast_zero, mul_zero, zero_pow (by norm_num), zero_add,
      Real.sqrt_sq halt]

/-- C6 witness: with `res = 1`, captured altitude 0 and the two-sample
channel `[2, 5]`, the corrected intensity at sample 1 is `5` (the blend
degenerates to the sample at bin 1), and `exact_bin` at sample 0 is
`0/1 = 0`. -/
theorem C6_slant_range_witness :
    (slant_range_correction ⟨Real.pi / 2, 0, 1, 1⟩
        ⟨[RVal.num 2, RVal.num 5], [RVal.num 2, RVal.num 5],
          defaultPose, 0⟩).swath_right.get? 1 = some (RVal.num 5)
    ∧ exact_bin 1 0 0 = 0 := by
  have h := C6_slant_range_formula ⟨Real.pi / 2, 0, 1, 1⟩
    ⟨[RVal.num 2, RVal.num 5], [RVal.num 2, RVal.num 5], defaultPose, 0⟩
    2 1 rfl rfl (by norm_num)
  constructor
  · rw [h.1]
    norm_num [slant_to_ground_spec, RVal.add, RVal.smul, Real.sqrt_one]
  · have h0 := h.2.2 (le_refl 0)
    rw [h0]
    norm_num

/-- C8: for a swath whose channels are equal in length on entry, the
channels remain equal in length after intensity normalization (which is
per-sample — a spec-modelled fact about the absent
`cubic_spline_regression` module, taken as hypothesis `hnorm`), after
blind-zone removal, and after slant-range correction; and every row of
the resulting coordinate array has the same sample count as the
processed channels. -/
theorem C8_channel_length_invariant (norm : List RVal → List RVal)
    (hnorm : ∀ xs : List RVal, (norm xs).length = xs.length)
    (ssd : side_scan_data) (current_altitude : ℝ) (sw : swath_structure)
    (h : sw.swath_right.length = sw.swath_left.length) :
    (norm sw.swath_right).length = (norm sw.swath_left).length
    ∧ (blind_zone_removal ssd current_altitude (norm sw.swath_right)).length
        = (blind_zone_removal ssd current_altitude (norm sw.swath_left)).length
    ∧ (processSwath norm ssd current_altitude sw).swath_right.length
        = (processSwath norm ssd current_altitude sw).swath_left.length
    ∧ (pose_correction ssd (processSwath norm ssd current_altitude sw)).x_right.length
        = (processSwath norm ssd current_altitude sw).swath_right.length
    ∧ (pose_correction ssd (processSwath norm ssd current_altitude sw)).x_left.length
        = (processSwath norm ssd current_altitude sw).swath_right.length
    ∧ (pose_correction ssd (processSwath norm ssd current_altitude sw)).y_right.length
        = (processSwath norm ssd current_altitude sw).swath_right.length
    ∧ (pose_correction ssd (processSwath norm ssd current_altitude sw)).y_left.length
        = (processSwath norm ssd current_altitude sw).swath_right.length
    ∧ (pose_correction ssd (processSwath norm ssd current_altitude sw)).intensity_right.length
        = (processSwath norm ssd current_altitude sw).swath_right.length
    ∧ (pose_correction ssd (processSwath norm ssd current_altitude sw)).intensity_left.length
        = (processSwath norm ssd current_altitude sw).swath_right.length := by
  have hn : (norm sw.swath_right).length = (norm sw.swath_left).length := by
    rw [hnorm, hnorm, h]
  have hb : (blind_zone_removal ssd current_altitude (norm sw.swath_right)).length
      = (blind_zone_removal ssd current_altitude (norm sw.swath_left)).length := by
    unfold blind_zone_removal
    rw [pySliceAssign_length, pySliceAssign_length, hn]
  have hp : (processSwath norm ssd current_altitude sw).swath_right.length
      = (processSwath norm ssd current_altitude sw).swath_left.length := by
    simp [processSwath, slant_range_correction]
  refine ⟨hn, hb, hp, ?_, ?_, ?_, ?_, ?_, ?_⟩
  · simp [pose_correction]
  · simp [pose_correction]
  · simp [pose_correction]
  · simp [pose_correction]
  · simp [pose_correction]
  · simp only [pose_correction, processSwath, slant_range_correction,
      List.length_ofFn]

/-- C8 witness: with the identity normalization, node altitude 0 and the
one-sample channels `[1]` and `[2]`, the processed channels both have
length 1. -/
theorem C8_channel_length_witness :
    (processSwath id ⟨1, 1, 1, 1⟩ 0
        ⟨[RVal.num 1], [RVal.num 2], defaultPose, 0⟩).swath_right.length
      = (processSwath id ⟨1, 1, 1, 1⟩ 0
        ⟨[RVal.num 1], [RVal.num 2], defaultPose, 0⟩).swath_left.length
    ∧ (processSwath id ⟨1, 1, 1, 1⟩ 0
        ⟨[RVal.num 1], [RVal.num 2], defaultPose, 0⟩).swath_right.length
      = 1 := by
  have hidx : index_FBR ⟨1, 1, 1, 1⟩ 0 = 0 := by
    simp [index_FBR, zero_div]
  refine ⟨(C8_channel_length_invariant id (fun xs => rfl) ⟨1, 1, 1, 1⟩ 0
      ⟨[RVal.num 1], [RVal.num 2], defaultPose, 0⟩ rfl).2.2.1, ?_⟩
  simp only [processSwath, slant_range_correction, List.length_ofFn, id]
  unfold blind_zone_removal
  rw [hidx]
  rfl

/-- C1 counterexample: the flattened intensity sequence does NOT pair
right-channel points with right-channel intensities.  For a single
one-sample frame with right intensity 1 and left intensity 2, the
scatter's intensity sequence is `[2, 1]` (left channel first, from
`intensity_values.extend(coordinate_array[5])` before row 4), while the
claimed right-channel-first pairing would be `[1, 2]`. -/
theorem C1_intensity_pairing_counterexample :
    (construct_frame_scatter
        [⟨[0], [0], [0], [0], [RVal.num 1], [RVal.num 2]⟩]).2.2
      ≠ rightFirstIntensity
          [⟨[0], [0], [0], [0], [RVal.num 1], [RVal.num 2]⟩] := by
  simp only [construct_frame_scatter, rightFirstIntensity, flatRows,
    List.foldl_cons, List.foldl_nil, List.map_cons, List.map_nil,
    List.flatten, List.nil_append, List.append_nil, List.cons_append,
    List.singleton_append]
  intro hcontr
  have h1 := List.head_eq_of_cons_eq hcontr
  have : (2 : ℝ) = 1 := by
    injection h1
  norm_num at this

/-- C1 (amended): position by position, the scatter pairs each
right-channel (u, v) coordinate pair with that swath's LEFT-channel
intensity and each left-channel pair with the RIGHT-channel intensity:
`u` and `v` are flattened right row then left row per frame, while the
intensity sequence is flattened left row then right row per frame. -/
theorem C1_intensity_pairing_swapped (buffer : List CoordinateFrame) :
    construct_frame_scatter buffer
      = (flatRows (fun f => f.x_right ++ f.x_left) buffer,
         flatRows (fun f => f.y_right ++ f.y_left) buffer,
         flatRows (fun f => f.intensity_left ++ f.intensity_right) buffer) :=
  construct_frame_scatter_eq buffer

/-- C2: queued swaths are NOT immutable.  All entries of the unprocessed
buffer reference the single `current_swath` object allocated in
`__init__`, so a second sonar message arriving before the first queued
swath is processed overwrites every field of that queued swath (samples,
pose snapshot and altitude alike).  Scenario: pose update, then sonar
message with samples `[1]`, then sonar message with samples `[2]`. -/
theorem C2_queued_swath_mutated_by_later_sonar :
    NodeState.buffer_unprocessed_swaths
        (sonar_sub ⟨[1], [1]⟩ (state_sub ⟨1, 2, 1, 0, 0, 0⟩ initNodeState))
      = [currentSwathRef]
    ∧ NodeState.buffer_unprocessed_swaths
        (sonar_sub ⟨[2], [2]⟩ (sonar_sub ⟨[1], [1]⟩
          (state_sub ⟨1, 2, 1, 0, 0, 0⟩ initNodeState)))
      = [currentSwathRef, currentSwathRef]
    ∧ List.get? (NodeState.heap
        (sonar_sub ⟨[1], [1]⟩ (state_sub ⟨1, 2, 1, 0, 0, 0⟩ initNodeState)))
        currentSwathRef
      = some ⟨[RVal.num 1], [RVal.num 1], ⟨1, 2, 1, 0, 0, 0⟩, 0⟩
    ∧ List.get? (NodeState.heap
        (sonar_sub ⟨[2], [2]⟩ (sonar_sub ⟨[1], [1]⟩
          (state_sub ⟨1, 2, 1, 0, 0, 0⟩ initNodeState))))
        currentSwathRef
      = some ⟨[RVal.num 2], [RVal.num 2], ⟨1, 2, 1, 0, 0, 0⟩, 0⟩
    ∧ List.get? (NodeState.heap
        (sonar_sub ⟨[2], [2]⟩ (sonar_sub ⟨[1], [1]⟩
          (state_sub ⟨1, 2, 1, 0, 0, 0⟩ initNodeState))))
        currentSwathRef
      ≠ List.get? (NodeState.heap
        (sonar_sub ⟨[1], [1]⟩ (state_sub ⟨1, 2, 1, 0, 0, 0⟩ initNodeState)))
        currentSwathRef := by
  refine ⟨rfl, rfl, rfl, rfl, ?_⟩
  intro hcontr
  have h1 : ([RVal.num 2] : List RVal) = [RVal.num 1] := by
    have h2 := Option.some.inj hcontr
    exact congrArg swath_structure.swath_right h2
  have h3 : RVal.num 2 = RVal.num 1 := List.head_eq_of_cons_eq h1
  have : (2 : ℝ) = 1 := by injection h3
  norm_num at this

set_option maxRecDepth 4096 in
/-- C7: a mosaic build triggering with fewer than 3 scatter points is NOT
a recoverable skip: `construct_frame` faults (with an empty scatter,
Python's `min(u_temp)` raises `ValueError`; with 1-2 points the
triangulation-based grid interpolation is degenerate — modelled from the
spec), the exception is not caught anywhere in
`run_full_pre_processing_pipeline`, and the tick aborts instead of
continuing with the queued swath. -/
theorem C7_degenerate_build_faults :
    construct_frame
        (List.replicate 100 (⟨[], [], [], [], [], []⟩ : CoordinateFrame))
      = Except.error ()
    ∧ construct_frame
        ((⟨[0], [0], [0], [0], [RVal.num 1], [RVal.num 1]⟩ : CoordinateFrame)
          :: List.replicate 99 (⟨[], [], [], [], [], []⟩ : CoordinateFrame))
      = Except.error ()
    ∧ run_full_pre_processing_pipeline id ⟨1, 1, 1, 1⟩
        { initNodeState with
            buffer_unprocessed_swaths := [currentSwathRef]
            buffer_processed_coordinate_array :=
              List.replicate 100 (⟨[], [], [], [], [], []⟩ : CoordinateFrame) }
      = none := by
  exact ⟨rfl, rfl, rfl⟩

/-- Full case analysis of one successful tick. -/
theorem tick_cases (norm : List RVal → List RVal) (ssd : side_scan_data)
    (st st' : NodeState)
    (h : run_full_pre_processing_pipeline norm ssd st = some st') :
    (st.buffer_unprocessed_swaths = [] ∧ st' = st)
    ∨ (∃ ref rest sw,
        st.buffer_unprocessed_swaths = ref :: rest
        ∧ st.heap.get? ref = some sw
        ∧ ((mosaicTrigger st
            ∧ st' = { st with
                heap := st.heap.set ref
                  (processSwath norm ssd st.current_altitude sw)
                buffer_unprocessed_swaths := rest
                buffer_processed_coordinate_array :=
                  st.buffer_processed_coordinate_array.drop 50
                    ++ [pose_correction ssd
                        (processSwath norm ssd st.current_altitude sw)]
                builds := st.builds + 1 })
          ∨ (¬ mosaicTrigger st
            ∧ st' = { st with
                heap := st.heap.set ref
                  (processSwath norm ssd st.current_altitude sw)
                buffer_unprocessed_swaths := rest
                buffer_processed_coordinate_array :=
                  st.buffer_processed_coordinate_array
                    ++ [pose_correction ssd
                        (processSwath norm ssd st.current_altitude sw)]
                builds := st.builds }))) := by
  unfold run_full_pre_processing_pipeline at h
  rcases hbuf : st.buffer_unprocessed_swaths with _ | ⟨ref, rest⟩
  · rw [hbuf] at h
    injection h with h
    exact Or.inl ⟨rfl, h.symm⟩
  · rw [hbuf] at h
    dsimp only at h
    by_cases htr : st.buffer_processed_coordinate_array.length % 100 = 0
      ∧ st.buffer_processed_coordinate_array.length ≠ 0
    · rw [if_pos htr] at h
      rcases hcf : construct_frame st.buffer_processed_coordinate_array
        with u | sc
      · rw [hcf] at h
        dsimp only [Except.map] at h
        exact Option.noConfusion h
      · rw [hcf] at h
        dsimp only [Except.map] at h
        rcases hheap : st.heap.get? ref with _ | sw
        · rw [hheap] at h
          exact Option.noConfusion h
        · rw [hheap] at h
          dsimp only at h
          refine Or.inr ⟨ref, rest, sw, rfl, hheap, Or.inl ⟨htr, ?_⟩⟩
          injection h with h
          rw [← h]
    · rw [if_neg htr] at h
      dsimp only at h
      rcases hheap : st.heap.get? ref with _ | sw
      · rw [hheap] at h
        exact Option.noConfusion h
      · rw [hheap] at h
        dsimp only at h
        refine Or.inr ⟨ref, rest, sw, rfl, hheap, Or.inr ⟨htr, ?_⟩⟩
        injection h with h
        rw [← h]

/-- C3 (amended): a mosaic build is NOT triggered on every tick at which
the processed-buffer length is a positive multiple of 100 — the tick
returns before the build check whenever the unprocessed queue is empty.
On a successful tick, a build occurs exactly when the unprocessed queue
is non-empty AND the length is a positive multiple of 100; when it does,
the build and the eviction act on the processed buffer before the new
frame is appended and before the swath is popped from the queue. -/
theorem C3_build_gated_by_nonempty_queue (norm : List RVal → List RVal)
    (ssd : side_scan_data) (st st' : NodeState)
    (h : run_full_pre_processing_pipeline norm ssd st = some st') :
    (st'.builds = st.builds + 1 ↔
      (st.buffer_unprocessed_swaths ≠ [] ∧ mosaicTrigger st))
    ∧ (st.buffer_unprocessed_swaths = [] → st' = st)
    ∧ (st.buffer_unprocessed_swaths ≠ [] → mosaicTrigger st →
        ∃ fr, st'.buffer_processed_coordinate_array
            = st.buffer_processed_coordinate_array.drop 50 ++ [fr]
          ∧ st'.buffer_unprocessed_swaths
            = st.buffer_unprocessed_swaths.tail) := by
  rcases tick_cases norm ssd st st' h with ⟨hnil, rfl⟩
    | ⟨ref, rest, sw, hbuf, hheap, ⟨htr, rfl⟩ | ⟨htr, rfl⟩⟩
  · refine ⟨?_, fun _ => rfl, fun hne _ => absurd hnil hne⟩
    constructor
    · intro hb
      exact absurd hb (by omega)
    · intro hb
      exact absurd hnil hb.1
  · refine ⟨?_, ?_, ?_⟩
    · simp only [hbuf]
      constructor
      · intro _
        exact ⟨List.cons_ne_nil ref rest, htr⟩
      · intro _
        trivial
    · intro hemp
      rw [hbuf] at hemp
      exact absurd hemp (List.cons_ne_nil ref rest)
    · intro _ _
      exact ⟨pose_correction ssd (processSwath norm ssd st.current_altitude sw),
        rfl, by rw [hbuf]; rfl⟩
  · refine ⟨?_, ?_, ?_⟩
    · dsimp only
      constructor
      · intro hb
        exact absurd hb (by omega)
      · intro hb
        exact absurd hb.2 htr
    · intro hemp
      rw [hbuf] at hemp
      exact absurd hemp (List.cons_ne_nil ref rest)
    · intro _ htrig
      exact absurd htrig htr

/-- C3 counterexample: a tick on which the processed-buffer length is 100
(a nonzero multiple of 100) but the unprocessed queue is empty returns
immediately: the state is unchanged and no mosaic build is invoked, so
the build is NOT independent of whether the unprocessed queue is empty. -/
theorem C3_trigger_counterexample :
    run_full_pre_processing_pipeline id ⟨1, 1, 1, 1⟩
        { initNodeState with
            buffer_processed_coordinate_array := List.replicate 100
              (⟨[0], [0], [0], [0], [RVal.num 1], [RVal.num 1]⟩
                : CoordinateFrame) }
      = some { initNodeState with
            buffer_processed_coordinate_array := List.replicate 100
              (⟨[0], [0], [0], [0], [RVal.num 1], [RVal.num 1]⟩
                : CoordinateFrame) }
    ∧ mosaicTrigger { initNodeState with
            buffer_processed_coordinate_array := List.replicate 100
              (⟨[0], [0], [0], [0], [RVal.num 1], [RVal.num 1]⟩
                : CoordinateFrame) } := by
  refine ⟨rfl, ?_, ?_⟩ <;> simp [mosaicTrigger]

set_option maxRecDepth 8192 in
/-- C3 witness: a tick with a non-empty unprocessed queue and a
processed buffer of exactly 100 frames does build (the build counter
increments) and evicts 50 frames before appending the new one, leaving
51. -/
theorem C3_build_gated_witness :
    ∃ st' : NodeState,
      run_full_pre_processing_pipeline id ⟨1, 1, 1, 1⟩
          { heap := [⟨[], [], defaultPose, 0⟩]
            current_altitude := 0
            current_state := defaultPose
            state_initialized := true
            buffer_unprocessed_swaths := [0]
            buffer_processed_coordinate_array := List.replicate 100
              (⟨[0], [0], [0], [0], [RVal.num 1], [RVal.num 1]⟩
                : CoordinateFrame)
            builds := 0 }
        = some st'
      ∧ st'.builds = 1
      ∧ st'.buffer_processed_coordinate_array.length = 51 := by
  have htick : run_full_pre_processing_pipeline id ⟨1, 1, 1, 1⟩
      { heap := [⟨[], [], defaultPose, 0⟩]
        current_altitude := 0
        current_state := defaultPose
        state_initialized := true
        buffer_unprocessed_swaths := [0]
        buffer_processed_coordinate_array := List.replicate 100
          (⟨[0], [0], [0], [0], [RVal.num 1], [RVal.num 1]⟩
            : CoordinateFrame)
        builds := 0 }
      = some
        { heap := (List.set [⟨[], [], defaultPose, 0⟩] 0
              (processSwath id ⟨1, 1, 1, 1⟩ 0 ⟨[], [], defaultPose, 0⟩))
          current_altitude := 0
          current_state := defaultPose
          state_initialized := true
          buffer_unprocessed_swaths := []
          buffer_processed_coordinate_array :=
            ((List.replicate 100
              (⟨[0], [0], [0], [0], [RVal.num 1], [RVal.num 1]⟩
                : CoordinateFrame)).drop 50
            ++ [pose_correction ⟨1, 1, 1, 1⟩
                (processSwath id ⟨1, 1, 1, 1⟩ 0 ⟨[], [], defaultPose, 0⟩)])
          builds := 0 + 1 } := rfl
  have h := C3_build_gated_by_nonempty_queue id ⟨1, 1, 1, 1⟩ _ _ htick
  refine ⟨_, htick, ?_, ?_⟩
  · exact h.1.mpr ⟨by simp, by simp [mosaicTrigger]⟩
  · rcases h.2.2 (by simp) (by simp [mosaicTrigger]) with ⟨fr, hfr, _⟩
    rw [hfr]
    simp

/-- Along any successful execution, the processed buffer never exceeds
100 frames: it reaches 100 only at the instant before a triggering tick,
which evicts 50 before appending. -/
theorem execAux_processed_le (norm : List RVal → List RVal)
    (ssd : side_scan_data) :
    ∀ (es : List Event) (st st' : NodeState),
      st.buffer_processed_coordinate_array.length ≤ 100 →
      execAux norm ssd st es = some st' →
      st'.buffer_processed_coordinate_array.length ≤ 100 := by
  intro es
  induction es with
  | nil =>
      intro st st' hle hx
      unfold execAux at hx
      injection hx with hx
      rw [← hx]
      exact hle
  | cons e es ih =>
      intro st st' hle hx
      unfold execAux at hx
      rcases hstep : step norm ssd e st with _ | st1
      · rw [hstep] at hx
        exact Option.noConfusion hx
      · rw [hstep] at hx
        dsimp only at hx
        refine ih st1 st' ?_ hx
        cases e with
        | sonar msg =>
            injection hstep with hstep
            rw [← hstep]
            unfold sonar_sub
            split
            · exact hle
            · exact hle
        | dvl a =>
            injection hstep with hstep
            rw [← hstep]
            unfold dvl_sub
            split
            · exact hle
            · exact hle
        | pose p =>
            injection hstep with hstep
            rw [← hstep]
            exact hle
        | tick =>
            rcases tick_cases norm ssd st st1 hstep with ⟨_, rfl⟩
              | ⟨ref, rest, sw, hbuf, hheap, ⟨htr, rfl⟩ | ⟨htr, rfl⟩⟩
            · exact hle
            · dsimp only
              rw [List.length_append, List.length_drop]
              simp only [List.length_singleton]
              omega
            · dsimp only
              rw [List.length_append]
              simp only [List.length_singleton]
              have htr' : ¬ (st.buffer_processed_coordinate_array.length % 100 = 0
                  ∧ st.buffer_processed_coordinate_array.length ≠ 0) := htr
              omega

/-- C5: along any successful execution from the freshly initialized
node, the processed buffer (MosaicBuffer) holds at most 100 frames;
the three message handlers never change it; a tick with an empty
unprocessed queue leaves it unchanged; a non-triggering tick appends
exactly one frame; and a triggering tick finds exactly 100 frames,
evicts the 50 oldest — retaining the 50 most recent — and then appends
exactly one frame. -/
theorem C5_mosaic_buffer_invariants (norm : List RVal → List RVal)
    (ssd : side_scan_data) (es : List Event) (st : NodeState)
    (h : execute norm ssd es = some st) :
    st.buffer_processed_coordinate_array.length ≤ 100
    ∧ (∀ msg, (sonar_sub msg st).buffer_processed_coordinate_array
        = st.buffer_processed_coordinate_array)
    ∧ (∀ a, (dvl_sub a st).buffer_processed_coordinate_array
        = st.buffer_processed_coordinate_array)
    ∧ (∀ p, (state_sub p st).buffer_processed_coordinate_array
        = st.buffer_processed_coordinate_array)
    ∧ (∀ st', run_full_pre_processing_pipeline norm ssd st = some st' →
        (st.buffer_unprocessed_swaths = [] →
          st'.buffer_processed_coordinate_array
            = st.buffer_processed_coordinate_array)
        ∧ (st.buffer_unprocessed_swaths ≠ [] → ¬ mosaicTrigger st →
            ∃ fr, st'.buffer_processed_coordinate_array
              = st.buffer_processed_coordinate_array ++ [fr])
        ∧ (st.buffer_unprocessed_swaths ≠ [] → mosaicTrigger st →
            st.buffer_processed_coordinate_array.length = 100
            ∧ (st.buffer_processed_coordinate_array.drop 50).length = 50
            ∧ ∃ fr, st'.buffer_processed_coordinate_array
                = st.buffer_processed_coordinate_array.drop 50 ++ [fr])) := by
  have hle := execAux_processed_le norm ssd es initNodeState st
    (by simp [initNodeState]) h
  refine ⟨hle, ?_, ?_, ?_, ?_⟩
  · intro msg
    unfold sonar_sub
    split
    · rfl
    · rfl
  · intro a
    unfold dvl_sub
    split
    · rfl
    · rfl
  · intro p
    rfl
  · intro st' htick
    rcases tick_cases norm ssd st st' htick with ⟨hnil, rfl⟩
      | ⟨ref, rest, sw, hbuf, hheap, ⟨htr, rfl⟩ | ⟨htr, rfl⟩⟩
    · exact ⟨fun _ => rfl, fun hne _ => absurd hnil hne,
        fun hne _ => absurd hnil hne⟩
    · refine ⟨?_, ?_, ?_⟩
      · intro hemp
        rw [hbuf] at hemp
        exact absurd hemp (List.cons_ne_nil _ _)
      · intro _ hntr
        exact absurd htr hntr
      · intro _ _
        have h100 : st.buffer_processed_coordinate_array.length = 100 := by
          have htr' : st.buffer_processed_coordinate_array.length % 100 = 0
              ∧ st.buffer_processed_coordinate_array.length ≠ 0 := htr
          omega
        exact ⟨h100, by rw [List.length_drop, h100], ⟨_, rfl⟩⟩
    · refine ⟨?_, ?_, ?_⟩
      · intro hemp
        rw [hbuf] at hemp
        exact absurd hemp (List.cons_ne_nil _ _)
      · intro _ _
        exact ⟨_, rfl⟩
      · intro _ htrig
        exact absurd htrig htr

/-- C5 witness: after a pose update and one sonar message from the
initialized node, the processed buffer is within the bound and a further
sonar message leaves it unchanged. -/
theorem C5_mosaic_buffer_witness :
    ∃ st : NodeState,
      execute id ⟨1, 1, 1, 1⟩
          [Event.pose ⟨1, 2, 1, 0, 0, 0⟩, Event.sonar ⟨[1], [1]⟩] = some st
      ∧ st.buffer_processed_coordinate_array.length ≤ 100
      ∧ (∀ msg, (sonar_sub msg st).buffer_processed_coordinate_array
          = st.buffer_processed_coordinate_array) := by
  have hex : execute id ⟨1, 1, 1, 1⟩
      [Event.pose ⟨1, 2, 1, 0, 0, 0⟩, Event.sonar ⟨[1], [1]⟩]
      = some
        { heap := [⟨[RVal.num 1], [RVal.num 1], ⟨1, 2, 1, 0, 0, 0⟩, 0⟩]
          current_altitude := 0
          current_state := ⟨1, 2, 1, 0, 0, 0⟩
          state_initialized := true
          buffer_unprocessed_swaths := [0]
          buffer_processed_coordinate_array := []
          builds := 0 } := rfl
  have h := C5_mosaic_buffer_invariants id ⟨1, 1, 1, 1⟩ _ _ hex
  exact ⟨_, hex, h.1, h.2.1⟩
